import Mathlib

/-!
# Verification development for the redditlang front end and mid end

Shallow embedding of the syntax-tree-to-AST transformer
(src/parser/from_pair.rs) and of the AST-to-CFG compiler dispatch
(src/compiler/mod.rs).  Pest pairs are modelled as finite trees carrying a
rule tag, the matched text, a start position and an ordered child list.
Process-terminating failure paths of the Rust code (syntax_error, the bug!
macro, unwrap/expect panics, todo!() arms) are modelled as distinct error
values of an Except monad.  Definitions whose code lives in repository files
that are not part of src/ (parser/mod.rs, compiler/compile_node.rs,
errors.rs, utils.rs, grammar.pest) are modelled from the specification and
say so in their doc comments.
-/

namespace RL

/-- Grammar rule tag of a syntax pair (the pest Rule enumeration generated
from grammar.pest, which is external to src/).  Only the tags that
src/parser/from_pair.rs inspects are named; every other tag is `other`. -/
inductive Rule where
  | String
  | UNumber
  | Number
  | Ident
  | Expr
  | Add
  | Subtract
  | Multiply
  | Divide
  | XOR
  | Equality
  | Inequality
  | If
  | ElseIf
  | Else
  | Block
  | other (tag : String)
deriving DecidableEq, Repr

/-- A pest Pair: rule tag, matched text (as_str), start position of its span
(as_span().start_pos(), flattened to a single offset) and the ordered child
pairs (into_inner()). -/
inductive Pair where
  | mk : Rule → String → Nat → List Pair → Pair

/-- The rule tag of a pair (Pair::as_rule). -/
def Pair.rule : Pair → Rule
  | .mk r _ _ _ => r

/-- The matched text of a pair (Pair::as_str). -/
def Pair.str : Pair → String
  | .mk _ s _ _ => s

/-- The start position of a pair's span (as_span().start_pos()). -/
def Pair.pos : Pair → Nat
  | .mk _ _ p _ => p

/-- The ordered child pairs of a pair (Pair::into_inner). -/
def Pair.children : Pair → List Pair
  | .mk _ _ _ c => c

/-- The failure modes of the build/compile stages.  The Rust code terminates
the process on each of them; the embedding returns them as values so the
distinct classes stay observable (spec section 7). -/
inductive Err where
  /-- User-facing error raised through errors.rs syntax_error: message plus
  the source position the Error::new_from_pos call supplies. -/
  | syn (msg : String) (pos : Nat)
  /-- Internal-bug class raised through the bug! macro.  The Rust messages
  interpolate the offending rule tag; the embedding keeps the fixed tag. -/
  | bug (msg : String)
  /-- A panic from unwrap/expect on a missing child or value. -/
  | panicE (msg : String)
  /-- A todo!() arm of the compiler dispatch (no message in the source). -/
  | notImplemented
  /-- Control-flow-integrity error (spec section 7, class 3). -/
  | cfi (msg : String)
deriving DecidableEq, Repr

def invalidModifierMsg : String := "Invalid modifier"

def duplicateArgumentsMsg : String := "Duplicate arguments"

def notAnExpressionMsg : String := "Value is not an expression"

def invalidExpressionMsg : String := "Invalid expression"

def breakOutsideLoopMsg : String := "break outside loop"

def invalidSignMsg : String := "INVALID_SIGN"

def unknownOperatorMsg : String := "UNKNOWN_OPERATOR"

def unknownCondOperatorMsg : String := "UNKNOWN_COND_OPERATOR"

def exprIsStatementMsg : String := "EXPR_IS_STATEMENT_COMPILER"

def unwrapMsg : String := "called unwrap on a missing value"

/-- True exactly on the user-facing class of `Err` (spec section 7 demands
internal-bug reports be distinguishable from it). -/
def Err.isUserFacing : Err → Bool
  | .syn _ _ => true
  | _ => false

/-- Fail-fast collection of an iterator of fallible results, the shape every
`collect::<Vec<_>>()` over diverging error paths takes in the source: the
first failing element decides the outcome. -/
def mapE (f : α → Except Err β) : List α → Except Err (List β)
  | [] => .ok []
  | x :: xs =>
    match f x with
    | .error e => .error e
    | .ok y =>
      match mapE f xs with
      | .error e => .error e
      | .ok ys => .ok (y :: ys)

/-- slice::chunks(2): splits a list into consecutive chunks of two, the last
chunk possibly a singleton. -/
def chunks2 : List α → List (List α)
  | [] => []
  | [x] => [[x]]
  | x :: y :: rest => [x, y] :: chunks2 rest

/-- Interleaves a list of pairs into a flat list, first component first:
the even-length child sequences the operator-chain rules produce. -/
def flattenPairs : List (α × α) → List α
  | [] => []
  | p :: rest => p.1 :: p.2 :: flattenPairs rest

/-- Rust str::trim_end as the modifier handling calls it (the standard
library function is external): removes trailing whitespace characters. -/
def trimEnd (s : String) : String :=
  ⟨(s.data.reverse.dropWhile Char.isWhitespace).reverse⟩

/-- The value of a decimal digit character, none for any other character. -/
def digitVal (c : Char) : Option Nat :=
  if '0' ≤ c ∧ c ≤ '9' then some (c.toNat - '0'.toNat) else none

def digitsToNatAux : List Char → Nat → Option Nat
  | [], acc => some acc
  | c :: cs, acc =>
    match digitVal c with
    | none => none
    | some d => digitsToNatAux cs (acc * 10 + d)

/-- Rust str::parse for the unsigned numeric magnitude (the standard library
parser is external): decimal digits to a number, none on an empty string or
any non-digit. -/
def strToNat (s : String) : Option Nat :=
  match s.data with
  | [] => none
  | l => digitsToNatAux l 0

/-- Modelled from the spec: utils.rs (not under src/) supplies is_unique,
used by Function::parse_from; per the spec's duplicate-detection contract it
holds exactly when the elements are pairwise distinct, anywhere in the list. -/
def is_unique : List String → Bool
  | [] => true
  | x :: xs => !(decide (x ∈ xs)) && is_unique xs

/-- Modelled from the spec: the AST's Number is a signed numeric literal with
the sign applied at parse time (its alias lives in parser/mod.rs, absent from
src/); the embedding uses the integers. -/
abbrev Number := Int

/-- An identifier name (parser/mod.rs type; shape per spec section 3). -/
structure Ident where
  name : String
deriving DecidableEq, Repr

/-- A type annotation: base identifier plus an is-array flag (source Type). -/
structure Typ where
  ident : Ident
  is_array : Bool
deriving DecidableEq, Repr

/-- An identifier with an optional type annotation. -/
structure Declaration where
  ident : Ident
  type : Option Typ
deriving DecidableEq, Repr

/-- A leaf expression value (source Term). -/
inductive Term where
  | String (s : String)
  | Number (n : Number)
  | Ident (i : Ident)
deriving DecidableEq, Repr

inductive MathOperator where
  | Add
  | Subtract
  | Multiply
  | Divide
  | XOR
deriving DecidableEq, Repr

/-- One term of an operator chain: an operand plus an optional operator. -/
structure BinaryExprTerm where
  operand : Term
  operator : Option MathOperator
deriving DecidableEq, Repr

structure BinaryExpr where
  terms : List BinaryExprTerm
deriving DecidableEq, Repr

inductive ConditionalOperator where
  | Equality
  | AntiEquality
deriving DecidableEq, Repr

structure ConditionExprTerm where
  operand : Term
  operator : Option ConditionalOperator
deriving DecidableEq, Repr

structure ConditionalExpr where
  terms : List ConditionExprTerm
deriving DecidableEq, Repr

inductive FunctionMod where
  | Debug
  | Public
deriving DecidableEq, Repr

inductive VariableMod where
  | Public
deriving DecidableEq, Repr

/-- Modelled from the spec: the Expr variant set (parser/mod.rs, absent from
src/) wraps a BinaryExpr, a ConditionalExpr or a bare Term. -/
inductive Expr where
  | binary (b : BinaryExpr)
  | conditional (c : ConditionalExpr)
  | term (t : Term)
deriving DecidableEq, Repr

structure Call where
  ident : Ident
  args : List Term
deriving DecidableEq, Repr

structure Throw where
  value : Expr
deriving DecidableEq, Repr

structure Import where
  path : Term
deriving DecidableEq, Repr

structure ModuleD where
  ident : Ident
deriving DecidableEq, Repr

structure Assignment where
  ident : Ident
  value : Expr
deriving DecidableEq, Repr

structure Return where
  value : Expr
deriving DecidableEq, Repr

structure Variable where
  modifiers : List VariableMod
  declaration : Declaration
  value : Expr
deriving DecidableEq, Repr

mutual
/-- A statement node of the AST.  The variant list mirrors the exhaustive
match of compile_one in src/compiler/mod.rs (parser/mod.rs, where the enum
itself lives, is absent from src/; shapes follow spec section 3). -/
inductive Node where
  | Loop (l : LoopN)
  | Break
  | Function (f : Function)
  | Call (c : Call)
  | Throw (t : Throw)
  | Import (i : Import)
  | Module (m : ModuleD)
  | TryCatch (tc : TryCatchN)
  | Variable (v : Variable)
  | Assignment (a : Assignment)
  | If (i : IfBlock)
  | Class (c : ClassN)
  | Return (r : Return)
  | Expr (e : Expr)

/-- A function declaration: modifiers, name declaration, argument
declarations and body tree. -/
inductive Function where
  | mk (modifiers : List FunctionMod) (declaration : Declaration)
       (args : List Declaration) (body : List Node)

/-- An unconditional loop with a body tree. -/
inductive LoopN where
  | mk (body : List Node)

/-- A try/catch with an optional bound exception identifier. -/
inductive TryCatchN where
  | mk (tryBody : List Node) (catchIdent : Option Ident) (catchBody : List Node)

/-- A class with a name and a body tree. -/
inductive ClassN where
  | mk (ident : Ident) (body : List Node)

/-- An if-chain: cases and optional else, in encountered order. -/
inductive IfBlock where
  | mk (if_nodes : List IfNode)

inductive IfNode where
  | Case (expr : Expr) (body : List Node)
  | Else (body : List Node)
end

/-- A Tree is an ordered sequence of statement nodes. -/
abbrev Tree := List Node

def Function.modifiers : Function → List FunctionMod
  | .mk m _ _ _ => m

def Function.declaration : Function → Declaration
  | .mk _ d _ _ => d

def Function.args : Function → List Declaration
  | .mk _ _ a _ => a

def Function.body : Function → List Node
  | .mk _ _ _ b => b

/-- Ident::parse_from (src/parser/from_pair.rs, lines 276-280): wraps the
pair's matched text verbatim; it always succeeds and performs no check. -/
def Ident.parse_from (p : Pair) : Option Ident :=
  some ⟨p.str⟩

/-- Modelled from the spec: string literals are unescaped/unquoted (the
enquote crate doing it is external to the repository); strips one layer of
matching double quotes and yields none otherwise. -/
def unquote (s : String) : Option String :=
  if 2 ≤ s.data.length ∧ s.data.head? = some '"' ∧ s.data.getLast? = some '"' then
    some ⟨(s.data.drop 1).dropLast⟩
  else none

/-- The sign match inside Term::parse_from's Number arm (lines 92-98):
Rule::Add means non-negative, Rule::Subtract negative, anything else is the
INVALID_SIGN internal bug. -/
def signOfRule (r : Rule) : Except Err Bool :=
  if r = Rule.Add then .ok false
  else if r = Rule.Subtract then .ok true
  else .error (.bug invalidSignMsg)

/-- Term::parse_from (lines 81-109).  A Number pair has an optional explicit
sign pair before the magnitude (has_sign is children.len() == 2) and the sign
is applied arithmetically; UNumber, parenthesized Expr and unknown rules
yield no value (the callers' unwrap then panics). -/
def Term.parse_from (p : Pair) : Except Err (Option Term) :=
  match p.rule with
  | .String =>
    match unquote p.str with
    | some s => .ok (some (.String s))
    | none => .error (.panicE unwrapMsg)
  | .UNumber => .ok none
  | .Number =>
    match p.children with
    | [signP, magP] =>
      match signOfRule signP.rule with
      | .error e => .error e
      | .ok isNeg =>
        match strToNat magP.str with
        | some n => .ok (some (.Number (if isNeg then -(n : Int) else (n : Int))))
        | none => .error (.panicE unwrapMsg)
    | [] => .error (.panicE unwrapMsg)
    | magP :: _ =>
      match strToNat magP.str with
      | some n => .ok (some (.Number (n : Int)))
      | none => .error (.panicE unwrapMsg)
  | .Ident =>
    match Ident.parse_from p with
    | some i => .ok (some (.Ident i))
    | none => .error (.panicE unwrapMsg)
  | .Expr => .ok none
  | _ => .ok none

/-- Term::parse_from(x).unwrap() as the operator-chain builders call it:
a missing value is a panic. -/
def unwrapTermParse (p : Pair) : Except Err Term :=
  match Term.parse_from p with
  | .error e => .error e
  | .ok none => .error (.panicE unwrapMsg)
  | .ok (some t) => .ok t

/-- Declaration::parse_from (lines 19-30): first child is the identifier,
the optional second child a type whose own first child is the type identifier
and whose second child, when present, marks an array type. -/
def Declaration.parse_from (p : Pair) : Except Err Declaration :=
  match p.children with
  | [] => .error (.panicE unwrapMsg)
  | identP :: rest =>
    match Ident.parse_from identP with
    | none => .error (.panicE unwrapMsg)
    | some ident =>
      match rest with
      | [] => .ok ⟨ident, none⟩
      | typeP :: _ =>
        match typeP.children with
        | [] => .error (.panicE unwrapMsg)
        | tIdentP :: tRest =>
          match Ident.parse_from tIdentP with
          | none => .error (.panicE unwrapMsg)
          | some tIdent => .ok ⟨ident, some ⟨tIdent, !tRest.isEmpty⟩⟩

/-- The modifier match of Function::parse_from (lines 40-51): the raw token
is trimmed of trailing whitespace, then "debug" maps to Debug and "bar" to
Public; anything else is the Invalid modifier syntax error, positioned at
`startPos` — the position the caller captured from the whole declaration. -/
def buildFunctionMod (m : Pair) (startPos : Nat) : Except Err FunctionMod :=
  if trimEnd m.str = "debug" then .ok .Debug
  else if trimEnd m.str = "bar" then .ok .Public
  else .error (.syn invalidModifierMsg startPos)

/-- The modifier match of Variable::parse_from (lines 192-202): only "bar"
(after trailing-whitespace trim) is accepted, mapping to Public. -/
def buildVariableMod (m : Pair) (startPos : Nat) : Except Err VariableMod :=
  if trimEnd m.str = "bar" then .ok .Public
  else .error (.syn invalidModifierMsg startPos)

/-- Function::parse_from (lines 32-79).  Children in order: modifier list,
declaration, argument list, body.  The modifier errors use the function
pair's own start position; the duplicate-argument check runs on the collected
argument identifiers, positioned at the argument list's span start, before
the body pair is even touched.  The body build is the external parse
(parser/mod.rs, absent from src/), passed in as `parseBody`. -/
def Function.parse_from (parseBody : Pair → Except Err Tree) (p : Pair) :
    Except Err Function :=
  match p.children with
  | [] => .error (.panicE unwrapMsg)
  | modsP :: rest1 =>
    match mapE (fun m => buildFunctionMod m p.pos) modsP.children with
    | .error e => .error e
    | .ok modifiers =>
      match rest1 with
      | [] => .error (.panicE unwrapMsg)
      | declP :: rest2 =>
        match Declaration.parse_from declP with
        | .error e => .error e
        | .ok declaration =>
          match rest2 with
          | [] => .error (.panicE unwrapMsg)
          | argsP :: rest3 =>
            match mapE Declaration.parse_from argsP.children with
            | .error e => .error e
            | .ok args =>
              if is_unique (args.map fun a => a.ident.name) then
                match rest3 with
                | [] => .error (.panicE unwrapMsg)
                | bodyP :: _ =>
                  match parseBody bodyP with
                  | .error e => .error e
                  | .ok body => .ok ⟨modifiers, declaration, args, body⟩
              else .error (.syn duplicateArgumentsMsg argsP.pos)

/-- Expr::parse_from (lines 282-296): parse a generic node (parse_one lives
in parser/mod.rs, absent from src/, and is passed in as an oracle), then
accept exactly the expression variant; a statement variant is the
"Value is not an expression" syntax error at the sub-tree's own start
position, and no node at all is the expect panic. -/
def Expr.parse_from (parseOne : Pair → Option Node) (p : Pair) :
    Except Err Expr :=
  match parseOne p with
  | none => .error (.panicE invalidExpressionMsg)
  | some (Node.Expr x) => .ok x
  | some _ => .error (.syn notAnExpressionMsg p.pos)

/-- Variable::parse_from (lines 184-212).  Children in order: modifier list,
declaration, value.  Modifier errors use the variable pair's own start
position; the value goes through Expr::parse_from, so a statement there
errors at the value sub-tree's position. -/
def Variable.parse_from (parseOne : Pair → Option Node) (p : Pair) :
    Except Err Variable :=
  match p.children with
  | [] => .error (.panicE unwrapMsg)
  | modsP :: rest1 =>
    match mapE (fun m => buildVariableMod m p.pos) modsP.children with
    | .error e => .error e
    | .ok modifiers =>
      match rest1 with
      | [] => .error (.panicE unwrapMsg)
      | declP :: rest2 =>
        match Declaration.parse_from declP with
        | .error e => .error e
        | .ok declaration =>
          match rest2 with
          | [] => .error (.panicE unwrapMsg)
          | valueP :: _ =>
            match Expr.parse_from parseOne valueP with
            | .error e => .error e
            | .ok value => .ok ⟨modifiers, declaration, value⟩

/-- The operator match of BinaryExpr::parse_from (lines 228-235), applied to
the first child of the intervening operator pair; an unknown tag is the
UNKNOWN_OPERATOR internal bug. -/
def mathOpOfRule (r : Rule) : Except Err MathOperator :=
  match r with
  | .Add => .ok .Add
  | .Subtract => .ok .Subtract
  | .Multiply => .ok .Multiply
  | .Divide => .ok .Divide
  | .XOR => .ok .XOR
  | _ => .error (.bug unknownOperatorMsg)

/-- One chunk of BinaryExpr::parse_from's chunk map (lines 225-238): a
two-element chunk is (operator pair, operand pair) — the operator is resolved
from the operator pair's first child's rule — and a singleton chunk is a lone
operand with operator None. -/
def buildBETerm (x : List Pair) : Except Err BinaryExprTerm :=
  match x with
  | [opP, operandP] =>
    match opP.children with
    | [] => .error (.panicE unwrapMsg)
    | opInner :: _ =>
      match mathOpOfRule opInner.rule with
      | .error e => .error e
      | .ok o =>
        match unwrapTermParse operandP with
        | .error e => .error e
        | .ok t => .ok ⟨t, some o⟩
  | [operandP] =>
    match unwrapTermParse operandP with
    | .error e => .error e
    | .ok t => .ok ⟨t, none⟩
  | _ => .error (.panicE unwrapMsg)

/-- BinaryExpr::parse_from (lines 214-242): removes the first child as an
initial lone operand, chunks the remaining children by two — so each chunk is
(operator, operand) — and prepends the lone first operand as its own
chunk. -/
def BinaryExpr.parse_from (p : Pair) : Except Err BinaryExpr :=
  match p.children with
  | [] => .error (.panicE unwrapMsg)
  | first :: rest =>
    match mapE buildBETerm ([first] :: chunks2 rest) with
    | .error e => .error e
    | .ok terms => .ok ⟨terms⟩

/-- The operator match of ConditionalExpr::parse_from (lines 254-259):
Equality and Inequality; an unknown tag is the UNKNOWN_COND_OPERATOR
internal bug. -/
def condOpOfRule (r : Rule) : Except Err ConditionalOperator :=
  match r with
  | .Equality => .ok .Equality
  | .Inequality => .ok .AntiEquality
  | _ => .error (.bug unknownCondOperatorMsg)

/-- One chunk of ConditionalExpr::parse_from's chunk map (lines 250-261): a
chunk is (operand pair, optional trailing operator pair), so only a final
singleton chunk carries operator None. -/
def buildCETerm (x : List Pair) : Except Err ConditionExprTerm :=
  match x with
  | [] => .error (.panicE unwrapMsg)
  | operandP :: rest =>
    match unwrapTermParse operandP with
    | .error e => .error e
    | .ok t =>
      match rest with
      | [] => .ok ⟨t, none⟩
      | opP :: _ =>
        match opP.children with
        | [] => .error (.panicE unwrapMsg)
        | opInner :: _ =>
          match condOpOfRule opInner.rule with
          | .error e => .error e
          | .ok o => .ok ⟨t, some o⟩

/-- ConditionalExpr::parse_from (lines 244-265): chunks the children by two
directly — each chunk is (operand, operator), the final chunk possibly a lone
operand. -/
def ConditionalExpr.parse_from (p : Pair) : Except Err ConditionalExpr :=
  match mapE buildCETerm (chunks2 p.children) with
  | .error e => .error e
  | .ok terms => .ok ⟨terms⟩

/-- The per-function variable scope (src/compiler/mod.rs, Scope): identifier
to storage slot, newest binding first so re-declaration shadows. -/
structure Scope where
  vars : List (String × Nat)
deriving DecidableEq, Repr

/-- CompileMetadata (src/compiler/mod.rs): the cursor's current basic block
and the per-function scope.  LLVM handles are abstracted to block ids. -/
structure CompileMetadata where
  basic_block : Nat
  function_scope : Scope
deriving DecidableEq, Repr

/-- The full lowering state.  `meta` is the CompileMetadata of src/.  The
rest is modelled from the spec: section 4.2 requires a stack of pending
loop-exit blocks pushed on Loop entry and popped on Loop exit (the per-kind
lowering code, compiler/compile_node.rs, is absent from src/), and the fresh
counters abstract LLVM's block and slot allocation. -/
structure CompileState where
  meta : CompileMetadata
  loop_exits : List Nat
  next_block : Nat
  next_slot : Nat
deriving DecidableEq, Repr

/-- Modelled from the spec: Break's lowering (compiler/compile_node.rs is
absent from src/) branches unconditionally to the nearest enclosing loop's
exit block; with no enclosing loop on the stack it is the hard
control-flow-integrity error diagnosing "break outside loop" (section 4.2). -/
def breakCompile (s : CompileState) : Except Err CompileState :=
  match s.loop_exits with
  | [] => .error (.cfi breakOutsideLoopMsg)
  | _ :: _ => .ok s

/-- Modelled from the spec: Call's lowering evaluates the argument terms and
emits a call instruction at the cursor, leaving cursor and scope unchanged
(instruction emission is abstracted away). -/
def callCompile (s : CompileState) : Except Err CompileState :=
  .ok s

/-- Modelled from the spec: Variable's lowering allocates a fresh storage
slot, stores the evaluated value, and registers ident -> slot in scope;
prepending means a re-declaration shadows the earlier slot from then on. -/
def variableCompile (v : Variable) (s : CompileState) : Except Err CompileState :=
  .ok { s with
        meta := { s.meta with
                  function_scope :=
                    ⟨(v.declaration.ident.name, s.next_slot) ::
                      s.meta.function_scope.vars⟩ }
        next_slot := s.next_slot + 1 }

mutual
/-- compile (src/compiler/mod.rs, lines 32-36): lowers each statement of the
tree in order, threading the state. -/
def compile (tree : List Node) (s : CompileState) : Except Err CompileState :=
  match tree with
  | [] => .ok s
  | n :: rest =>
    match compile_one n s with
    | .error e => .error e
    | .ok s1 => compile rest s1

/-- compile_one (src/compiler/mod.rs, lines 38-59): dispatch on the statement
kind.  Function, Throw, Import, Module, TryCatch, Assignment, Class and
Return are todo!() arms; Expr is the EXPR_IS_STATEMENT_COMPILER internal bug;
Loop and If lower their bodies per spec section 4.2 (their per-kind code,
compiler/compile_node.rs, is absent from src/ and modelled from the spec:
Loop allocates a header and an exit block and pushes the exit on the
loop-exit stack around its body; If allocates a merge block and lowers each
case and else body). -/
def compile_one (n : Node) (s : CompileState) : Except Err CompileState :=
  match n with
  | .Loop (.mk body) =>
    match compile body
        { meta := { basic_block := s.next_block
                    function_scope := s.meta.function_scope }
          loop_exits := (s.next_block + 1) :: s.loop_exits
          next_block := s.next_block + 2
          next_slot := s.next_slot } with
    | .error e => .error e
    | .ok s1 =>
      .ok { meta := { basic_block := s.next_block + 1
                      function_scope := s1.meta.function_scope }
            loop_exits := s.loop_exits
            next_block := s1.next_block
            next_slot := s1.next_slot }
  | .Break => breakCompile s
  | .Function _ => .error .notImplemented
  | .Call _ => callCompile s
  | .Throw _ => .error .notImplemented
  | .Import _ => .error .notImplemented
  | .Module _ => .error .notImplemented
  | .TryCatch _ => .error .notImplemented
  | .Variable v => variableCompile v s
  | .Assignment _ => .error .notImplemented
  | .If (.mk ifNodes) =>
    match compileIf ifNodes { s with next_block := s.next_block + 1 } with
    | .error e => .error e
    | .ok s1 =>
      .ok { s1 with meta := { s1.meta with basic_block := s.next_block } }
  | .Class _ => .error .notImplemented
  | .Return _ => .error .notImplemented
  | .Expr _ => .error (.bug exprIsStatementMsg)

/-- Modelled from the spec: lowers the if-chain's cases and else bodies in
encountered order, each body in a fresh block (section 4.2's Evaluating and
CaseBody states; condition evaluation and branch wiring are abstracted). -/
def compileIf (ns : List IfNode) (s : CompileState) : Except Err CompileState :=
  match ns with
  | [] => .ok s
  | .Case _ body :: rest =>
    match compile body
        { s with meta := { s.meta with basic_block := s.next_block }
                 next_block := s.next_block + 1 } with
    | .error e => .error e
    | .ok s1 =>
      compileIf rest
        { s1 with meta := { s1.meta with basic_block := s.meta.basic_block } }
  | .Else body :: rest =>
    match compile body
        { s with meta := { s.meta with basic_block := s.next_block }
                 next_block := s.next_block + 1 } with
    | .error e => .error e
    | .ok s1 =>
      compileIf rest
        { s1 with meta := { s1.meta with basic_block := s.meta.basic_block } }
end

/-! Concrete inputs used by the closed instances below. -/

/-- An initial compile state: entry block 0, empty scope, no enclosing
loop (cook() in src/main.rs starts compilation exactly so). -/
def initState : CompileState :=
  ⟨⟨0, ⟨[]⟩⟩, [], 1, 0⟩

/-- True exactly on Loop statement nodes. -/
def isLoopNode : Node → Bool
  | .Loop _ => true
  | _ => false

/-- A two-statement program whose Break is not inside any Loop (and that
contains no Loop at all). -/
def throwThenBreak : Tree :=
  [Node.Throw ⟨Expr.term (Term.Number 1)⟩, Node.Break]

/-- The shape claim C1 asserts of a built operator chain: a term carries no
operator exactly when it is the final term of the sequence. -/
@[reducible] def noneOnlyFinal (ts : List BinaryExprTerm) : Prop :=
  ∀ i : Fin ts.length, (ts.get i).operator = none ↔ i.val + 1 = ts.length

def aIdentPair : Pair :=
  .mk .Ident "a" 0 []

def bIdentPair : Pair :=
  .mk .Ident "b" 4 []

/-- An intervening operator pair whose first child carries the Add rule. -/
def plusOpPair : Pair :=
  .mk (.other "Operation") "+" 2 [.mk .Add "+" 2 []]

/-- An intervening conditional-operator pair carrying the Equality rule. -/
def eqOpPair : Pair :=
  .mk (.other "CondOperation") "==" 2 [.mk .Equality "==" 2 []]

/-- A binary-expression pair for the source text a + b. -/
def binaryABPair : Pair :=
  .mk (.other "BinaryExpr") "a + b" 0 [aIdentPair, plusOpPair, bIdentPair]

/-- A conditional-expression pair for the source text a == b. -/
def condABPair : Pair :=
  .mk (.other "ConditionalExpr") "a == b" 0 [aIdentPair, eqOpPair, bIdentPair]

/-- An Ident-rule pair whose matched text is empty. -/
def emptyIdentPair : Pair :=
  .mk .Ident "" 0 []

/-- A modifier token that is unknown; its own position, 7, differs from the
enclosing declaration's position, 0. -/
def unknownModPair : Pair :=
  .mk (.other "Modifier") "xyz" 7 []

def unknownModsListPair : Pair :=
  .mk (.other "Modifiers") "xyz" 7 [unknownModPair]

def emptyModsListPair : Pair :=
  .mk (.other "Modifiers") "" 0 []

def fDeclPair : Pair :=
  .mk (.other "Declaration") "f" 12 [.mk .Ident "f" 12 []]

def emptyArgsPair : Pair :=
  .mk (.other "FunctionArgs") "" 14 []

def emptyBlockPair : Pair :=
  .mk .Block "" 16 []

/-- A function declaration pair, at position 0, carrying the unknown
modifier token at position 7. -/
def badModFunctionPair : Pair :=
  .mk (.other "Function") "xyz function f() {}" 0
    [unknownModsListPair, fDeclPair, emptyArgsPair, emptyBlockPair]

def varValuePair : Pair :=
  .mk (.other "Node") "1" 18 []

/-- A variable declaration pair, at position 0, carrying the unknown
modifier token at position 7. -/
def badModVariablePair : Pair :=
  .mk (.other "Variable") "xyz new f is 1" 0
    [unknownModsListPair, fDeclPair, varValuePair]

/-- A body builder that accepts any body pair (the body never matters to the
claims that use it). -/
def emptyBody : Pair → Except Err Tree :=
  fun _ => .ok []

/-- An argument list a, b, a with a duplicate in the first and third
position; its span starts at 20. -/
def dupArgsPair : Pair :=
  .mk (.other "FunctionArgs") "a, b, a" 20
    [.mk (.other "Declaration") "a" 20 [.mk .Ident "a" 20 []],
     .mk (.other "Declaration") "b" 23 [.mk .Ident "b" 23 []],
     .mk (.other "Declaration") "a" 26 [.mk .Ident "a" 26 []]]

/-- A function declaration pair whose argument list is a, b, a. -/
def dupArgsFunctionPair : Pair :=
  .mk (.other "Function") "function f(a, b, a) {}" 0
    [emptyModsListPair, fDeclPair, dupArgsPair, emptyBlockPair]

def magFivePair : Pair :=
  .mk .UNumber "5" 1 []

def addSignPair : Pair :=
  .mk .Add "+" 0 []

def subSignPair : Pair :=
  .mk .Subtract "-" 0 []

def xorSignPair : Pair :=
  .mk .XOR "^" 0 []

def numNoSignPair : Pair :=
  .mk .Number "5" 0 [magFivePair]

def numPlusPair : Pair :=
  .mk .Number "+5" 0 [addSignPair, magFivePair]

def numMinusPair : Pair :=
  .mk .Number "-5" 0 [subSignPair, magFivePair]

def numBadSignPair : Pair :=
  .mk .Number "^5" 0 [xorSignPair, magFivePair]

/-- A modifier token with trailing whitespace in its matched text. -/
def trailingDebugPair : Pair :=
  .mk (.other "Modifier") "debug " 5 []

def debugModPair : Pair :=
  .mk (.other "Modifier") "debug" 5 []

def barModPair : Pair :=
  .mk (.other "Modifier") "bar" 5 []

/-- An oracle standing for parse_one that yields an expression node. -/
def exprNodeOracle : Pair → Option Node :=
  fun _ => some (Node.Expr (Expr.term (Term.Number 7)))

/-- An oracle standing for parse_one that yields a statement node. -/
def breakNodeOracle : Pair → Option Node :=
  fun _ => some Node.Break

/-- A generic sub-tree pair sitting at position 3. -/
def subTreePair : Pair :=
  .mk (.other "Node") "7" 3 []

/-- A variable declaration pair whose value sub-tree sits at position 18. -/
def stmtValueVariablePair : Pair :=
  .mk (.other "Variable") "new f is 1" 0
    [emptyModsListPair, fDeclPair, varValuePair]

/-! ## Helper lemmas -/

theorem Pair.rule_mk (r : Rule) (s : String) (q : Nat) (c : List Pair) :
    (Pair.mk r s q c).rule = r := rfl

theorem Pair.str_mk (r : Rule) (s : String) (q : Nat) (c : List Pair) :
    (Pair.mk r s q c).str = s := rfl

theorem Pair.pos_mk (r : Rule) (s : String) (q : Nat) (c : List Pair) :
    (Pair.mk r s q c).pos = q := rfl

theorem Pair.children_mk (r : Rule) (s : String) (q : Nat) (c : List Pair) :
    (Pair.mk r s q c).children = c := rfl

theorem is_unique_iff_nodup (l : List String) : is_unique l = true ↔ l.Nodup := by
  induction l with
  | nil => simp [is_unique]
  | cons x xs ih => simp [is_unique, List.nodup_cons, ih]

theorem mapE_ok_mem {f : α → Except Err β} {l : List α} {ys : List β}
    (h : mapE f l = .ok ys) : ∀ y ∈ ys, ∃ x ∈ l, f x = .ok y := by
  induction l generalizing ys with
  | nil =>
    simp only [mapE, Except.ok.injEq] at h
    subst h
    simp
  | cons a l ih =>
    dsimp only [mapE] at h
    cases hfa : f a with
    | error e => rw [hfa] at h; cases h
    | ok y0 =>
      rw [hfa] at h
      cases hml : mapE f l with
      | error e => rw [hml] at h; cases h
      | ok ys0 =>
        rw [hml] at h
        cases h
        intro y hy
        rcases List.mem_cons.mp hy with hy | hy
        · exact ⟨a, List.mem_cons_self a l, hy ▸ hfa⟩
        · rcases ih hml y hy with ⟨x, hx, hfx⟩
          exact ⟨x, List.mem_cons_of_mem a hx, hfx⟩

theorem mapE_map (f : β → Except Err γ) (g : α → β) (l : List α) :
    mapE f (l.map g) = mapE (fun x => f (g x)) l := by
  induction l with
  | nil => rfl
  | cons a l ih => dsimp only [List.map, mapE]; rw [ih]

theorem chunks2_flattenPairs (l : List (α × α)) :
    chunks2 (flattenPairs l) = l.map fun q => [q.1, q.2] := by
  induction l with
  | nil => rfl
  | cons p rest ih => dsimp only [flattenPairs, chunks2, List.map]; rw [ih]

theorem flattenPairs_cons (p : α × α) (l : List (α × α)) :
    flattenPairs (p :: l) = p.1 :: p.2 :: flattenPairs l := rfl

theorem chunks2_flattenPairs_append (l : List (α × α)) (x : α) :
    chunks2 (flattenPairs l ++ [x]) = (l.map fun q => [q.1, q.2]) ++ [[x]] := by
  induction l with
  | nil => rfl
  | cons p rest ih =>
    dsimp only [flattenPairs, chunks2, List.map, List.cons_append]
    rw [ih]

theorem mapE_append_ok {f : α → Except Err β} {l₁ l₂ : List α} {ys zs : List β}
    (h₁ : mapE f l₁ = .ok ys) (h₂ : mapE f l₂ = .ok zs) :
    mapE f (l₁ ++ l₂) = .ok (ys ++ zs) := by
  induction l₁ generalizing ys with
  | nil =>
    simp only [mapE, Except.ok.injEq] at h₁
    subst h₁
    simpa using h₂
  | cons a l ih =>
    dsimp only [mapE] at h₁ ⊢
    cases hfa : f a with
    | error e => rw [hfa] at h₁; cases h₁
    | ok y0 =>
      rw [hfa] at h₁
      cases hml : mapE f l with
      | error e => rw [hml] at h₁; cases h₁
      | ok ys0 =>
        rw [hml] at h₁
        cases h₁
        rw [List.append_eq, ih hml]
        rfl

/-! ## Claim theorems -/

/-- Claim C10, counterexample: Ident::parse_from on a pair whose matched
text is empty builds an Ident whose name is empty — the builder enforces no
non-emptiness invariant. -/
theorem ident_nonempty_counterexample :
    Ident.parse_from emptyIdentPair = some ⟨""⟩ ∧
    (Ident.mk "").name.length = 0 :=
  ⟨rfl, rfl⟩

/-- Claim C10 (amended): every Ident built by Ident::parse_from carries the
pair's matched text verbatim — non-empty only when the grammar's matched
span is — and Ident equality is case-sensitive exact string match. -/
theorem ident_verbatim_text :
    ∀ p : Pair, Ident.parse_from p = some ⟨p.str⟩ ∧
      ∀ a b : Ident, a = b ↔ a.name = b.name := by
  intro p
  refine ⟨rfl, fun a b => ?_⟩
  cases a
  cases b
  simp

/-- Claim C10, witness: the amended statement at a concrete pair. -/
theorem ident_verbatim_text_witness :
    Ident.parse_from aIdentPair = some ⟨aIdentPair.str⟩ ∧
      ∀ a b : Ident, a = b ↔ a.name = b.name :=
  ident_verbatim_text aIdentPair

/-- Claim C8: an expression used as a statement reaching compile_one is the
EXPR_IS_STATEMENT_COMPILER internal bug (src/compiler/mod.rs line 57) — an
error class distinct from user-facing syntax errors, never a successful
lowering and never a no-op. -/
theorem expr_statement_internal_bug :
    ∀ (e : Expr) (s : CompileState),
      compile_one (Node.Expr e) s = .error (.bug exprIsStatementMsg) ∧
      (Err.bug exprIsStatementMsg).isUserFacing = false ∧
      ∀ s1 : CompileState,
        (Except.error (Err.bug exprIsStatementMsg) : Except Err CompileState) ≠ .ok s1 := by
  intro e s
  refine ⟨rfl, rfl, fun s1 h => ?_⟩
  cases h

/-- Claim C8, witness: the dispatch at a concrete expression and state. -/
theorem expr_statement_internal_bug_witness :
    compile_one (Node.Expr (Expr.term (Term.Number 7))) initState
        = .error (.bug exprIsStatementMsg) ∧
      (Err.bug exprIsStatementMsg).isUserFacing = false ∧
      ∀ s1 : CompileState,
        (Except.error (Err.bug exprIsStatementMsg) : Except Err CompileState) ≠ .ok s1 :=
  expr_statement_internal_bug (Expr.term (Term.Number 7)) initState

/-- Claim C9: every statement kind with no lowering rule — Function, Throw,
Import, Module, TryCatch, Assignment, Class, Return — makes compile_one fail
with the explicit not-implemented error (the todo!() arms of
src/compiler/mod.rs), distinguishable from every successful no-op result. -/
theorem unimplemented_arms_fail :
    ∀ (s : CompileState) (f : Function) (t : Throw) (i : Import) (m : ModuleD)
      (tc : TryCatchN) (a : Assignment) (c : ClassN) (r : Return),
      compile_one (Node.Function f) s = .error .notImplemented ∧
      compile_one (Node.Throw t) s = .error .notImplemented ∧
      compile_one (Node.Import i) s = .error .notImplemented ∧
      compile_one (Node.Module m) s = .error .notImplemented ∧
      compile_one (Node.TryCatch tc) s = .error .notImplemented ∧
      compile_one (Node.Assignment a) s = .error .notImplemented ∧
      compile_one (Node.Class c) s = .error .notImplemented ∧
      compile_one (Node.Return r) s = .error .notImplemented ∧
      ∀ s1 : CompileState,
        (Except.error Err.notImplemented : Except Err CompileState) ≠ .ok s1 := by
  intro s f t i m tc a c r
  refine ⟨rfl, rfl, rfl, rfl, rfl, rfl, rfl, rfl, fun s1 h => ?_⟩
  cases h

/-- Claim C9, witness: the dispatch at concrete payloads and a concrete
state. -/
theorem unimplemented_arms_fail_witness :
    compile_one (Node.Function (Function.mk [] ⟨⟨"f"⟩, none⟩ [] [])) initState
        = .error .notImplemented ∧
      compile_one (Node.Throw ⟨Expr.term (Term.Number 1)⟩) initState
        = .error .notImplemented ∧
      compile_one (Node.Import ⟨Term.Number 1⟩) initState
        = .error .notImplemented ∧
      compile_one (Node.Module ⟨⟨"m"⟩⟩) initState = .error .notImplemented ∧
      compile_one (Node.TryCatch (TryCatchN.mk [] none [])) initState
        = .error .notImplemented ∧
      compile_one (Node.Assignment ⟨⟨"x"⟩, Expr.term (Term.Number 1)⟩) initState
        = .error .notImplemented ∧
      compile_one (Node.Class (ClassN.mk ⟨"c"⟩ [])) initState = .error .notImplemented ∧
      compile_one (Node.Return ⟨Expr.term (Term.Number 1)⟩) initState
        = .error .notImplemented ∧
      ∀ s1 : CompileState,
        (Except.error Err.notImplemented : Except Err CompileState) ≠ .ok s1 :=
  unimplemented_arms_fail initState (Function.mk [] ⟨⟨"f"⟩, none⟩ [] [])
    ⟨Expr.term (Term.Number 1)⟩ ⟨Term.Number 1⟩ ⟨⟨"m"⟩⟩ (TryCatchN.mk [] none [])
    ⟨⟨"x"⟩, Expr.term (Term.Number 1)⟩ (ClassN.mk ⟨"c"⟩ [])
    ⟨Expr.term (Term.Number 1)⟩

/-- Claim C2, counterexample: throwThenBreak has a Break statement that is
not lexically inside any Loop (the program contains no Loop node at all),
yet compiling it does not yield the control-flow-integrity error — it fails
first at the Throw statement's todo!() arm, a not-implemented panic. -/
theorem break_claim_counterexample :
    throwThenBreak.all (fun n => !(isLoopNode n)) = true ∧
    Node.Break ∈ throwThenBreak ∧
    compile throwThenBreak initState = .error .notImplemented ∧
    Err.notImplemented ≠ Err.cfi breakOutsideLoopMsg := by
  refine ⟨rfl, ?_, rfl, by decide⟩
  simp [throwThenBreak]

/-- Claim C2 (amended): whenever compilation reaches a Break with no
enclosing loop — the loop-exit stack the spec prescribes is empty — the
result is the control-flow-integrity error diagnosing "break outside loop",
never a successful lowering; a program such as [Break] alone compiles to
exactly that error.  (Programs that fail earlier, at a not-yet-implemented
statement kind, never reach the Break.) -/
theorem break_outside_loop_diagnosed :
    ∀ s : CompileState, s.loop_exits = [] →
      compile_one Node.Break s = .error (.cfi breakOutsideLoopMsg) ∧
      compile [Node.Break] s = .error (.cfi breakOutsideLoopMsg) := by
  intro s h
  have hb : compile_one Node.Break s = .error (.cfi breakOutsideLoopMsg) := by
    show breakCompile s = _
    unfold breakCompile
    rw [h]
  refine ⟨hb, ?_⟩
  simp only [compile]
  rw [hb]

/-- Claim C2, witness: the amended statement at the initial state, whose
loop-exit stack is empty. -/
theorem break_outside_loop_diagnosed_witness :
    compile_one Node.Break initState = .error (.cfi breakOutsideLoopMsg) ∧
    compile [Node.Break] initState = .error (.cfi breakOutsideLoopMsg) :=
  break_outside_loop_diagnosed initState rfl

theorem Expr_parse_from_expr (parseOne : Pair → Option Node) (p : Pair)
    (e : Expr) (h : parseOne p = some (Node.Expr e)) :
    Expr.parse_from parseOne p = .ok e := by
  unfold Expr.parse_from
  rw [h]

theorem Expr_parse_from_stmt (parseOne : Pair → Option Node) (p : Pair)
    (n : Node) (h : parseOne p = some n) (hne : ∀ e, n ≠ Node.Expr e) :
    Expr.parse_from parseOne p = .error (.syn notAnExpressionMsg p.pos) := by
  unfold Expr.parse_from
  rw [h]
  cases n
  case Expr e => exact absurd rfl (hne e)
  all_goals rfl

/-- Claim C7: wherever an expression is required the builder parses a
generic node and returns its expression payload exactly when the node is an
expression variant; a statement variant there is the hard syntax error
"Value is not an expression" positioned at the offending sub-tree — shown
for Expr::parse_from itself and for the variable-initializer position of
Variable::parse_from, whose error carries the value sub-tree's position. -/
theorem expression_position_boundary :
    (∀ (parseOne : Pair → Option Node) (p : Pair) (e : Expr),
        parseOne p = some (Node.Expr e) →
        Expr.parse_from parseOne p = .ok e) ∧
    (∀ (parseOne : Pair → Option Node) (p : Pair) (n : Node),
        parseOne p = some n → (∀ e, n ≠ Node.Expr e) →
        Expr.parse_from parseOne p = .error (.syn notAnExpressionMsg p.pos)) ∧
    (∀ (parseOne : Pair → Option Node) (p modsP declP valueP : Pair)
        (rest : List Pair) (mods : List VariableMod) (decl : Declaration)
        (n : Node),
        p.children = modsP :: declP :: valueP :: rest →
        mapE (fun m => buildVariableMod m p.pos) modsP.children = .ok mods →
        Declaration.parse_from declP = .ok decl →
        parseOne valueP = some n → (∀ e, n ≠ Node.Expr e) →
        Variable.parse_from parseOne p
          = .error (.syn notAnExpressionMsg valueP.pos)) := by
  refine ⟨Expr_parse_from_expr, Expr_parse_from_stmt, ?_⟩
  intro parseOne p modsP declP valueP rest mods decl n hch hmods hdecl hv hne
  unfold Variable.parse_from
  rw [hch]
  dsimp only
  rw [hmods]
  dsimp only
  rw [hdecl]
  dsimp only
  rw [Expr_parse_from_stmt parseOne valueP n hv hne]

/-- Claim C7, witness: a statement node in the variable-initializer position
errors at the value sub-tree's position (18), and the oracle cases at
concrete inputs. -/
theorem expression_position_boundary_witness :
    Expr.parse_from exprNodeOracle subTreePair
        = .ok (Expr.term (Term.Number 7)) ∧
    Expr.parse_from breakNodeOracle subTreePair
        = .error (.syn notAnExpressionMsg 3) ∧
    Variable.parse_from breakNodeOracle stmtValueVariablePair
        = .error (.syn notAnExpressionMsg 18) :=
  ⟨expression_position_boundary.1 exprNodeOracle subTreePair
      (Expr.term (Term.Number 7)) rfl,
   expression_position_boundary.2.1 breakNodeOracle subTreePair Node.Break rfl
      (fun _ h => Node.noConfusion h),
   expression_position_boundary.2.2 breakNodeOracle stmtValueVariablePair
      emptyModsListPair fDeclPair varValuePair [] [] ⟨⟨"f"⟩, none⟩ Node.Break
      rfl rfl rfl rfl (fun _ h => Node.noConfusion h)⟩

/-- Claim C6, counterexample: the modifier token "debug " (trailing blank in
its matched text) is outside the closed set {debug, bar} yet builds
successfully, because the builder trims trailing whitespace first. -/
theorem modifier_closure_counterexample :
    buildFunctionMod trailingDebugPair 0 = .ok .Debug ∧
    trailingDebugPair.str ≠ "debug" ∧ trailingDebugPair.str ≠ "bar" :=
  ⟨rfl, by decide, by decide⟩

/-- Claim C6 (amended): after trailing whitespace is trimmed from the raw
token, building a function modifier succeeds exactly on "debug" (Debug) and
"bar" (Public), and a variable modifier exactly on "bar" (Public); every
other trimmed token fails with the Invalid modifier syntax error, and the
mapping is deterministic. -/
theorem modifier_closure_trimmed :
    (∀ (m : Pair) (pos : Nat), trimEnd m.str = "debug" →
        buildFunctionMod m pos = .ok .Debug) ∧
    (∀ (m : Pair) (pos : Nat), trimEnd m.str = "bar" →
        buildFunctionMod m pos = .ok .Public) ∧
    (∀ (m : Pair) (pos : Nat), trimEnd m.str ≠ "debug" →
        trimEnd m.str ≠ "bar" →
        buildFunctionMod m pos = .error (.syn invalidModifierMsg pos)) ∧
    (∀ (m : Pair) (pos : Nat), trimEnd m.str = "bar" →
        buildVariableMod m pos = .ok .Public) ∧
    (∀ (m : Pair) (pos : Nat), trimEnd m.str ≠ "bar" →
        buildVariableMod m pos = .error (.syn invalidModifierMsg pos)) := by
  refine ⟨?_, ?_, ?_, ?_, ?_⟩
  · intro m pos h
    unfold buildFunctionMod
    rw [if_pos h]
  · intro m pos h
    unfold buildFunctionMod
    rw [h]
    rfl
  · intro m pos h1 h2
    unfold buildFunctionMod
    rw [if_neg h1, if_neg h2]
  · intro m pos h
    unfold buildVariableMod
    rw [if_pos h]
  · intro m pos h
    unfold buildVariableMod
    rw [if_neg h]

/-- Claim C6, witness: the closed set at concrete tokens. -/
theorem modifier_closure_trimmed_witness :
    buildFunctionMod debugModPair 0 = .ok .Debug ∧
    buildFunctionMod barModPair 0 = .ok .Public ∧
    buildFunctionMod unknownModPair 7 = .error (.syn invalidModifierMsg 7) ∧
    buildVariableMod barModPair 0 = .ok .Public ∧
    buildVariableMod unknownModPair 7 = .error (.syn invalidModifierMsg 7) :=
  ⟨modifier_closure_trimmed.1 debugModPair 0 rfl,
   modifier_closure_trimmed.2.1 barModPair 0 rfl,
   modifier_closure_trimmed.2.2.1 unknownModPair 7 (by decide) (by decide),
   modifier_closure_trimmed.2.2.2.1 barModPair 0 rfl,
   modifier_closure_trimmed.2.2.2.2 unknownModPair 7 (by decide)⟩

/-- Claim C5: a numeric literal with explicit sign + or no sign yields
Number(m), an explicit sign - yields Number(-m) — the sign is applied
arithmetically, producing a single signed Number term — and a sign pair of
any other rule kind is the INVALID_SIGN internal-bug error. -/
theorem literal_sign_normalization :
    (∀ (p magP : Pair) (m : Nat), p.rule = .Number → p.children = [magP] →
        strToNat magP.str = some m →
        Term.parse_from p = .ok (some (Term.Number (m : Int)))) ∧
    (∀ (p signP magP : Pair) (m : Nat), p.rule = .Number →
        p.children = [signP, magP] → signP.rule = .Add →
        strToNat magP.str = some m →
        Term.parse_from p = .ok (some (Term.Number (m : Int)))) ∧
    (∀ (p signP magP : Pair) (m : Nat), p.rule = .Number →
        p.children = [signP, magP] → signP.rule = .Subtract →
        strToNat magP.str = some m →
        Term.parse_from p = .ok (some (Term.Number (-(m : Int))))) ∧
    (∀ (p signP magP : Pair), p.rule = .Number →
        p.children = [signP, magP] → signP.rule ≠ .Add →
        signP.rule ≠ .Subtract →
        Term.parse_from p = .error (.bug invalidSignMsg)) := by
  refine ⟨?_, ?_, ?_, ?_⟩
  · intro p magP m hrule hch hm
    obtain ⟨r, st, q, ch⟩ := p
    simp only [Pair.rule_mk] at hrule
    simp only [Pair.children_mk] at hch
    subst hrule
    subst hch
    unfold Term.parse_from
    simp only [Pair.rule_mk, Pair.children_mk]
    rw [hm]
  · intro p signP magP m hrule hch hsign hm
    obtain ⟨r, st, q, ch⟩ := p
    simp only [Pair.rule_mk] at hrule
    simp only [Pair.children_mk] at hch
    subst hrule
    subst hch
    unfold Term.parse_from
    simp only [Pair.rule_mk, Pair.children_mk]
    rw [hsign]
    simp [signOfRule, hm]
  · intro p signP magP m hrule hch hsign hm
    obtain ⟨r, st, q, ch⟩ := p
    simp only [Pair.rule_mk] at hrule
    simp only [Pair.children_mk] at hch
    subst hrule
    subst hch
    unfold Term.parse_from
    simp only [Pair.rule_mk, Pair.children_mk]
    rw [hsign]
    simp [signOfRule, hm]
  · intro p signP magP hrule hch hadd hsub
    obtain ⟨r, st, q, ch⟩ := p
    simp only [Pair.rule_mk] at hrule
    simp only [Pair.children_mk] at hch
    subst hrule
    subst hch
    have hs : signOfRule signP.rule = .error (.bug invalidSignMsg) := by
      unfold signOfRule
      rw [if_neg hadd, if_neg hsub]
    unfold Term.parse_from
    simp only [Pair.rule_mk, Pair.children_mk]
    rw [hs]

/-- Claim C5, witness: the literals 5, +5, -5 and a malformed XOR sign at
concrete pairs. -/
theorem literal_sign_normalization_witness :
    Term.parse_from numNoSignPair = .ok (some (Term.Number (5 : Int))) ∧
    Term.parse_from numPlusPair = .ok (some (Term.Number (5 : Int))) ∧
    Term.parse_from numMinusPair = .ok (some (Term.Number (-(5 : Int)))) ∧
    Term.parse_from numBadSignPair = .error (.bug invalidSignMsg) :=
  ⟨literal_sign_normalization.1 numNoSignPair magFivePair 5 rfl rfl rfl,
   literal_sign_normalization.2.1 numPlusPair addSignPair magFivePair 5
      rfl rfl rfl rfl,
   literal_sign_normalization.2.2.1 numMinusPair subSignPair magFivePair 5
      rfl rfl rfl rfl,
   literal_sign_normalization.2.2.2 numBadSignPair xorSignPair magFivePair
      rfl rfl (by decide) (by decide)⟩


theorem buildFunctionMod_invalid (m : Pair) (pos : Nat)
    (h1 : trimEnd m.str ≠ "debug") (h2 : trimEnd m.str ≠ "bar") :
    buildFunctionMod m pos = .error (.syn invalidModifierMsg pos) := by
  unfold buildFunctionMod
  rw [if_neg h1, if_neg h2]

theorem buildFunctionMod_error_eq (m : Pair) (pos : Nat) (e : Err)
    (h : buildFunctionMod m pos = .error e) :
    e = .syn invalidModifierMsg pos := by
  unfold buildFunctionMod at h
  split_ifs at h
  simp_all

theorem buildVariableMod_invalid (m : Pair) (pos : Nat)
    (h : trimEnd m.str ≠ "bar") :
    buildVariableMod m pos = .error (.syn invalidModifierMsg pos) := by
  unfold buildVariableMod
  rw [if_neg h]

theorem buildVariableMod_error_eq (m : Pair) (pos : Nat) (e : Err)
    (h : buildVariableMod m pos = .error e) :
    e = .syn invalidModifierMsg pos := by
  unfold buildVariableMod at h
  split_ifs at h
  simp_all

/-- A modifier list containing an unrecognized token makes the whole
fail-fast collection fail with the Invalid modifier error at the position
the caller supplied. -/
theorem mapE_funcMods_invalid (l : List Pair) (pos : Nat) (m : Pair)
    (hm : m ∈ l) (h1 : trimEnd m.str ≠ "debug") (h2 : trimEnd m.str ≠ "bar") :
    mapE (fun x => buildFunctionMod x pos) l
      = .error (.syn invalidModifierMsg pos) := by
  induction l with
  | nil => cases hm
  | cons a l ih =>
    rcases List.mem_cons.mp hm with rfl | hmem
    · simp only [mapE, buildFunctionMod_invalid m pos h1 h2]
    · cases hfa : buildFunctionMod a pos with
      | error e =>
        have he := buildFunctionMod_error_eq a pos e hfa
        subst he
        simp only [mapE, hfa]
      | ok y =>
        simp only [mapE, hfa]
        rw [ih hmem]

theorem mapE_varMods_invalid (l : List Pair) (pos : Nat) (m : Pair)
    (hm : m ∈ l) (h : trimEnd m.str ≠ "bar") :
    mapE (fun x => buildVariableMod x pos) l
      = .error (.syn invalidModifierMsg pos) := by
  induction l with
  | nil => cases hm
  | cons a l ih =>
    rcases List.mem_cons.mp hm with rfl | hmem
    · simp only [mapE, buildVariableMod_invalid m pos h]
    · cases hfa : buildVariableMod a pos with
      | error e =>
        have he := buildVariableMod_error_eq a pos e hfa
        subst he
        simp only [mapE, hfa]
      | ok y =>
        simp only [mapE, hfa]
        rw [ih hmem]

/-- Claim C3, counterexample: a function declaration at position 0 and a
variable declaration at position 0, each carrying the unrecognized modifier
token "xyz" whose own position is 7, error with the Invalid modifier syntax
error at position 0 — the enclosing declaration's position, not the
modifier's own. -/
theorem invalid_modifier_position_counterexample :
    Function.parse_from emptyBody badModFunctionPair
        = .error (.syn invalidModifierMsg 0) ∧
    Variable.parse_from breakNodeOracle badModVariablePair
        = .error (.syn invalidModifierMsg 0) ∧
    unknownModPair.pos = 7 ∧ badModFunctionPair.pos = 0 ∧
    badModVariablePair.pos = 0 ∧ (7 : Nat) ≠ 0 :=
  ⟨rfl, rfl, rfl, rfl, rfl, by decide⟩

/-- Claim C3 (amended): an unrecognized modifier token on a function or
variable declaration is a hard syntax error whose source position is the
enclosing declaration's own start position (the builder captures start_pos
from the whole declaration pair before descending into the modifiers), not
the modifier token's. -/
theorem invalid_modifier_error_position :
    (∀ (parseBody : Pair → Except Err Tree) (p modsP : Pair)
        (rest : List Pair) (m : Pair),
        p.children = modsP :: rest → m ∈ modsP.children →
        trimEnd m.str ≠ "debug" → trimEnd m.str ≠ "bar" →
        Function.parse_from parseBody p
          = .error (.syn invalidModifierMsg p.pos)) ∧
    (∀ (parseOne : Pair → Option Node) (p modsP : Pair)
        (rest : List Pair) (m : Pair),
        p.children = modsP :: rest → m ∈ modsP.children →
        trimEnd m.str ≠ "bar" →
        Variable.parse_from parseOne p
          = .error (.syn invalidModifierMsg p.pos)) := by
  constructor
  · intro parseBody p modsP rest m hch hmem h1 h2
    unfold Function.parse_from
    rw [hch]
    dsimp only
    rw [mapE_funcMods_invalid modsP.children p.pos m hmem h1 h2]
  · intro parseOne p modsP rest m hch hmem h
    unfold Variable.parse_from
    rw [hch]
    dsimp only
    rw [mapE_varMods_invalid modsP.children p.pos m hmem h]

/-- Claim C3, witness: the amended statement at the concrete declarations
of the counterexample. -/
theorem invalid_modifier_error_position_witness :
    Function.parse_from emptyBody badModFunctionPair
        = .error (.syn invalidModifierMsg badModFunctionPair.pos) ∧
    Variable.parse_from breakNodeOracle badModVariablePair
        = .error (.syn invalidModifierMsg badModVariablePair.pos) :=
  ⟨invalid_modifier_error_position.1 emptyBody badModFunctionPair
      unknownModsListPair [fDeclPair, emptyArgsPair, emptyBlockPair]
      unknownModPair rfl (List.mem_cons_self unknownModPair [])
      (by decide) (by decide),
   invalid_modifier_error_position.2 breakNodeOracle badModVariablePair
      unknownModsListPair [fDeclPair, varValuePair] unknownModPair rfl
      (List.mem_cons_self unknownModPair []) (by decide)⟩

theorem is_unique_false_of_dup (l : List String) (i j : Nat)
    (hi : i < l.length) (hj : j < l.length) (hij : i ≠ j)
    (heq : l.get ⟨i, hi⟩ = l.get ⟨j, hj⟩) : is_unique l = false := by
  cases hb : is_unique l
  · rfl
  · exfalso
    have hnd := (is_unique_iff_nodup l).mp hb
    have hf := (List.Nodup.get_inj_iff hnd).mp heq
    exact hij (congrArg Fin.val hf)

/-- Two argument declarations with the same identifier name, anywhere in
the list, falsify the uniqueness check on the mapped name list. -/
theorem map_dup_names (args : List Declaration) (i j : Nat)
    (hi : i < args.length) (hj : j < args.length) (hij : i ≠ j)
    (heq : (args.get ⟨i, hi⟩).ident.name = (args.get ⟨j, hj⟩).ident.name) :
    is_unique (args.map fun a => a.ident.name) = false := by
  apply is_unique_false_of_dup _ i j (by simpa using hi) (by simpa using hj) hij
  simp only [List.get_eq_getElem, List.getElem_map]
  simpa [List.get_eq_getElem] using heq

/-- Claim C4: a function declaration whose argument list carries the same
identifier at two distinct positions — anywhere, any argument count — fails
with the Duplicate arguments syntax error positioned at the argument list's
span start; the failure holds for every body builder whatsoever, so the
check runs before the body is built. -/
theorem duplicate_args_rejected :
    ∀ (parseBody : Pair → Except Err Tree) (p modsP declP argsP : Pair)
      (rest : List Pair) (mods : List FunctionMod) (decl : Declaration)
      (args : List Declaration) (i j : Nat)
      (hi : i < args.length) (hj : j < args.length),
      p.children = modsP :: declP :: argsP :: rest →
      mapE (fun m => buildFunctionMod m p.pos) modsP.children = .ok mods →
      Declaration.parse_from declP = .ok decl →
      mapE Declaration.parse_from argsP.children = .ok args →
      i ≠ j →
      (args.get ⟨i, hi⟩).ident.name = (args.get ⟨j, hj⟩).ident.name →
      Function.parse_from parseBody p
        = .error (.syn duplicateArgumentsMsg argsP.pos) := by
  intro parseBody p modsP declP argsP rest mods decl args i j hi hj
    hch hmods hdecl hargs hij hname
  unfold Function.parse_from
  rw [hch]
  dsimp only
  rw [hmods]
  dsimp only
  rw [hdecl]
  dsimp only
  rw [hargs]
  dsimp only
  rw [map_dup_names args i j hi hj hij hname]
  rfl

/-- Claim C4, witness: the function declared with parameters (a, b, a) fails
with the Duplicate arguments error at the argument list's span start, even
under a body builder that accepts everything. -/
theorem duplicate_args_rejected_witness :
    Function.parse_from emptyBody dupArgsFunctionPair
      = .error (.syn duplicateArgumentsMsg dupArgsPair.pos) :=
  duplicate_args_rejected emptyBody dupArgsFunctionPair emptyModsListPair
    fDeclPair dupArgsPair [emptyBlockPair] [] ⟨⟨"f"⟩, none⟩
    [⟨⟨"a"⟩, none⟩, ⟨⟨"b"⟩, none⟩, ⟨⟨"a"⟩, none⟩] 0 2
    (by decide) (by decide) rfl rfl rfl rfl (by decide) rfl


theorem buildBETerm_single (q : Pair) (t : BinaryExprTerm)
    (h : buildBETerm [q] = .ok t) : t.operator = none := by
  simp only [buildBETerm] at h
  split at h
  · cases h
  · cases h
    rfl

theorem buildBETerm_pair (a b : Pair) (t : BinaryExprTerm)
    (h : buildBETerm [a, b] = .ok t) : t.operator ≠ none := by
  simp only [buildBETerm] at h
  split at h
  · cases h
  · split at h
    · cases h
    · split at h
      · cases h
      · cases h
        simp

theorem buildCETerm_single (q : Pair) (t : ConditionExprTerm)
    (h : buildCETerm [q] = .ok t) : t.operator = none := by
  simp only [buildCETerm] at h
  split at h
  · cases h
  · cases h
    rfl

theorem buildCETerm_pair (a b : Pair) (t : ConditionExprTerm)
    (h : buildCETerm [a, b] = .ok t) : t.operator ≠ none := by
  simp only [buildCETerm] at h
  split at h
  · cases h
  · split at h
    · cases h
    · split at h
      · cases h
      · cases h
        simp

/-- Claim C1, counterexample: the binary expression a + b, whose children
are operand, operator, operand, builds to the term sequence
[(a, None), (b, Some Add)] — the term carrying no operator is the first,
not the final one, so the claimed shape fails on BinaryExpr::parse_from. -/
theorem binary_none_on_first_counterexample :
    BinaryExpr.parse_from binaryABPair
      = .ok ⟨[⟨Term.Ident ⟨"a"⟩, none⟩,
              ⟨Term.Ident ⟨"b"⟩, some MathOperator.Add⟩]⟩ ∧
    ¬ noneOnlyFinal [⟨Term.Ident ⟨"a"⟩, none⟩,
                     ⟨Term.Ident ⟨"b"⟩, some MathOperator.Add⟩] :=
  ⟨rfl, by decide⟩

/-- Claim C1 (amended): BinaryExpr::parse_from consumes its children as an
initial lone operand followed by (operator, operand) pairs; in the result
the first term carries no operator and every later term carries the
operator that combines the accumulator with that term, so the only None
operator sits on the first term.  ConditionalExpr::parse_from consumes its
children pairwise as (operand, operator) with a final lone operand; there
the only None operator sits on the final term. -/
theorem operator_chain_shape :
    (∀ (p first : Pair) (ops : List (Pair × Pair)) (t0 : BinaryExprTerm)
        (tl : List BinaryExprTerm),
        p.children = first :: flattenPairs ops →
        buildBETerm [first] = .ok t0 →
        mapE (fun q => buildBETerm [q.1, q.2]) ops = .ok tl →
        BinaryExpr.parse_from p = .ok ⟨t0 :: tl⟩ ∧ t0.operator = none ∧
          ∀ u ∈ tl, u.operator ≠ none) ∧
    (∀ (p lastP : Pair) (tos : List (Pair × Pair))
        (ctl : List ConditionExprTerm) (lt : ConditionExprTerm),
        p.children = flattenPairs tos ++ [lastP] →
        mapE (fun q => buildCETerm [q.1, q.2]) tos = .ok ctl →
        buildCETerm [lastP] = .ok lt →
        ConditionalExpr.parse_from p = .ok ⟨ctl ++ [lt]⟩ ∧
          lt.operator = none ∧ ∀ u ∈ ctl, u.operator ≠ none) := by
  constructor
  · intro p first ops t0 tl hch h0 hmap
    refine ⟨?_, buildBETerm_single first t0 h0, ?_⟩
    · unfold BinaryExpr.parse_from
      rw [hch]
      dsimp only
      rw [chunks2_flattenPairs]
      have h1 : mapE buildBETerm (ops.map fun q => [q.1, q.2]) = .ok tl := by
        rw [mapE_map]
        exact hmap
      dsimp only [mapE]
      rw [h0, h1]
    · intro u hu
      rcases mapE_ok_mem hmap u hu with ⟨q, hq, hbuild⟩
      exact buildBETerm_pair q.1 q.2 u hbuild
  · intro p lastP tos ctl lt hch hmap hlast
    refine ⟨?_, buildCETerm_single lastP lt hlast, ?_⟩
    · unfold ConditionalExpr.parse_from
      rw [hch, chunks2_flattenPairs_append]
      have h1 : mapE buildCETerm (tos.map fun q => [q.1, q.2]) = .ok ctl := by
        rw [mapE_map]
        exact hmap
      have h2 : mapE buildCETerm [[lastP]] = .ok [lt] := by
        dsimp only [mapE]
        rw [hlast]
      rw [mapE_append_ok h1 h2]
    · intro u hu
      rcases mapE_ok_mem hmap u hu with ⟨q, hq, hbuild⟩
      exact buildCETerm_pair q.1 q.2 u hbuild

/-- Claim C1, witness: the amended statement at the concrete chains a + b
and a == b. -/
theorem operator_chain_shape_witness :
    (BinaryExpr.parse_from binaryABPair
        = .ok ⟨[⟨Term.Ident ⟨"a"⟩, none⟩,
                ⟨Term.Ident ⟨"b"⟩, some MathOperator.Add⟩]⟩ ∧
      (⟨Term.Ident ⟨"a"⟩, none⟩ : BinaryExprTerm).operator = none ∧
      ∀ u ∈ [(⟨Term.Ident ⟨"b"⟩, some MathOperator.Add⟩ : BinaryExprTerm)],
        u.operator ≠ none) ∧
    (ConditionalExpr.parse_from condABPair
        = .ok ⟨[⟨Term.Ident ⟨"a"⟩, some ConditionalOperator.Equality⟩]
                ++ [⟨Term.Ident ⟨"b"⟩, none⟩]⟩ ∧
      (⟨Term.Ident ⟨"b"⟩, none⟩ : ConditionExprTerm).operator = none ∧
      ∀ u ∈ [(⟨Term.Ident ⟨"a"⟩,
               some ConditionalOperator.Equality⟩ : ConditionExprTerm)],
        u.operator ≠ none) :=
  ⟨operator_chain_shape.1 binaryABPair aIdentPair [(plusOpPair, bIdentPair)]
      ⟨Term.Ident ⟨"a"⟩, none⟩ [⟨Term.Ident ⟨"b"⟩, some MathOperator.Add⟩]
      rfl rfl rfl,
   operator_chain_shape.2 condABPair bIdentPair [(aIdentPair, eqOpPair)]
      [⟨Term.Ident ⟨"a"⟩, some ConditionalOperator.Equality⟩]
      ⟨Term.Ident ⟨"b"⟩, none⟩ rfl rfl rfl⟩

end RL
